import Mathlib

/-!
# Kotobaweb: the dialogue / answer-evaluation engine of `main.go`

A shallow embedding of the lesson data (`lesson1`), the free-text evaluator
(`evaluateTextAnswer`) and the tutor bridge (`callRealGemini`), followed by the
properties proved about them.

Conventions of the embedding.

* A Go `string` that the program handles is valid UTF-8 (request bodies go through
  `encoding/json`, which replaces invalid bytes by U+FFFD), so it is a Lean `String`:
  a sequence of Unicode code points.  On such strings the byte-wise `strings.Contains`
  coincides with containment of the code point sequence.
* Go `int` is `Int`; no arithmetic is performed on scene positions.
* `unicode.ToLower` has a fast path for ASCII that is written out in the Go library;
  above ASCII it consults the Unicode case tables of the Go release in use.  Those tables
  are not part of the repository, so they are the parameter `caseTable` below.
* A Go pointer that may be `nil` is a `Ptr`; dereferencing `nil` is the panic
  `Panic.nilPointerDereference`.
-/

namespace Kotobaweb

/-! ## The Go library functions used by the program -/

/-- `unicode.ToLower`: for `r <= MaxASCII` the letters `A`..`Z` are shifted by
`'a' - 'A'` and every other rune is returned unchanged; above ASCII the result is
read from the case tables. -/
def unicodeToLower (caseTable : Char → Char) (r : Char) : Char :=
  if r.toNat ≤ 127 then
    if 65 ≤ r.toNat ∧ r.toNat ≤ 90 then Char.ofNat (r.toNat + 32) else r
  else caseTable r

/-- `strings.ToLower`: every rune of the string is mapped by `unicode.ToLower`. -/
def ToLower (caseTable : Char → Char) (s : String) : String :=
  String.mk (s.data.map (unicodeToLower caseTable))

/-- Search for `substr` at every start position of `s`, left to right. -/
def containsRunes : List Char → List Char → Bool
  | [], substr => substr.isEmpty
  | c :: cs, substr => substr.isPrefixOf (c :: cs) || containsRunes cs substr

/-- `strings.Contains`: whether `substr` occurs within `s`. -/
def Contains (s substr : String) : Bool :=
  containsRunes s.data substr.data

/-- `strings.ContainsAny`: whether any code point of `chars` occurs within `s`. -/
def ContainsAny (s chars : String) : Bool :=
  s.data.any (fun c => chars.data.contains c)

/-! ## The data model -/

/-- Option: a choice button in the UI. -/
structure Option where
  Text : String
  Reaction : String
  IsCorrect : Bool
  ReactionImage : String
  deriving DecidableEq, Repr

/-- Scene: one screen of the visual novel. -/
structure Scene where
  InputType : String
  CharacterName : String
  CharacterMood : String
  Dialogue : String
  Options : List Option
  deriving DecidableEq, Repr

/-- Lesson: a collection of scenes. -/
structure Lesson where
  ID : String
  Title : String
  Scenes : List Scene
  deriving DecidableEq, Repr

/-- TextAnswerResponse: the result of the free-text check. -/
structure TextAnswerResponse where
  IsCorrect : Bool
  Reaction : String
  Feedback : String
  ReactionImage : String
  deriving DecidableEq, Repr

/-- The authored lesson. Scenes without an `Options` entry have the nil (empty) slice. -/
def lesson1 : Lesson :=
  { ID := "1"
    Title := "Meeting Sari in Jakarta"
    Scenes := [
      { InputType := "choice"
        CharacterName := "Sari"
        CharacterMood := "Muka_sari_menyapa.png"
        Dialogue := "Halo! Selamat siang. Aku belum pernah melihatmu di sini. Siapa namamu?"
        Options := [
          { Text := "Nama saya Wira.", Reaction := "Wah, nama yang bagus! Salam kenal, Aditya.", IsCorrect := true, ReactionImage := "Muka_sari_senang.png" },
          { Text := "Saya umur 12 tahun.", Reaction := "Eh? Aku tanya nama lho, bukan umur.", IsCorrect := false, ReactionImage := "Muka_sari_bingung.png" } ] },
      { InputType := "text"
        CharacterName := "Sari"
        CharacterMood := "Muka_sari_senang.png"
        Dialogue := "Salam kenal ya. Ngomong-ngomong, kamu asalnya dari mana?"
        Options := [] },
      { InputType := "choice"
        CharacterName := "Sari"
        CharacterMood := "Muka_sari_kaget.png"
        Dialogue := "Terus, sedang apa kamu di Jakarta?"
        Options := [
          { Text := "Saya sedang liburan.", Reaction := "Wah asyik! Jakarta punya banyak mall lho.", IsCorrect := true, ReactionImage := "Muka_sari_senang.png" },
          { Text := "Saya sedang makan batu.", Reaction := "Hah?! Gigi kamu kuat banget... (先生：石を食べていますか？ほんまに？ふざけんなぁお前)", IsCorrect := false, ReactionImage := "Muka_sari_bingung.png" },
          { Text := "Saya sedang belajar Bahasa.", Reaction := "Wah rajin sekali! Semangat ya.", IsCorrect := true, ReactionImage := "Muka_sari_senang.png" } ] },
      { InputType := "text"
        CharacterName := "Sari"
        CharacterMood := "Muka_sari_senang.png"
        Dialogue := "Kelihatan masih muda ya. Boleh tahu umur kamu berapa? (Tulis angka saja)"
        Options := [] },
      { InputType := "choice"
        CharacterName := "Sari"
        CharacterMood := "Muka_sari_menyap.png"
        Dialogue := "Oke deh, aku harus pergi kerja dulu. Senang mengobrol denganmu!"
        Options := [
          { Text := "Sampai jumpa!", Reaction := "Dah! Hati-hati di jalan.", IsCorrect := true, ReactionImage := "Muka_sari_happy.png" },
          { Text := "Kamu siapa?", Reaction := "Lho? Kan tadi kita baru kenalan...", IsCorrect := false, ReactionImage := "Muka_sari_bingung.png" } ] } ] }

/-! ## The free-text evaluator -/

/-- The hard-coded evaluation of a typed answer, `evaluateTextAnswer` of `main.go`. -/
def evaluateTextAnswer (caseTable : Char → Char) (sceneIndex : Int) (answer : String) :
    TextAnswerResponse :=
  let ans := ToLower caseTable answer
  if sceneIndex = 1 then
    if Contains ans "jepang" || Contains ans "japan" then
      { IsCorrect := true, Reaction := "Wah, Jepang! 🇯🇵 Aku suka anime lho.", Feedback := "Sempurna! (完璧です！)", ReactionImage := "Muka_sari_kaget.png" }
    else if Contains ans "indonesia" then
      { IsCorrect := true, Reaction := "Oh, orang lokal ternyata!", Feedback := "Benar! (正解です)", ReactionImage := "Muka_sari_senang.png" }
    else if Contains ans "rendang" then
      { IsCorrect := false, Reaction := "Eh rendang? Daerah mana itu... 🍛 Itu nama makanan kali!", Feedback := "Salah konteks. Rendang itu makanan wkwk. (それは食べ物です。場所ではありません ww)", ReactionImage := "Muka_sari_bingung.png" }
    else if Contains ans "sabun" then
      { IsCorrect := false, Reaction := "...kamu gak papa? Kepalamu terbentur?", Feedback := "Jawaban sangat aneh. (変な答えです。大丈夫ですか？)", ReactionImage := "Muka_sari_kaget.png" }
    else
      { IsCorrect := false, Reaction := "Hmm, aku belum pernah dengar nama daerah itu.", Feedback := "Coba jawab dengan nama negara atau kota. (国や都市の名前で答えてみてください)", ReactionImage := "Muka_sari_bingung.png" }
  else if sceneIndex = 3 then
    if ContainsAny ans "0123456789" then
      { IsCorrect := true, Reaction := "Ooh segitu. Masih semangat muda ya!", Feedback := "Angka diterima. (数字が確認できました。OKです)", ReactionImage := "Muka_sari_happy.png" }
    else
      { IsCorrect := false, Reaction := "Itu bukan angka deh kayaknya...", Feedback := "Tulis menggunakan angka. (数字を使って書いてください)", ReactionImage := "Muka_sari_bingung.png" }
  else
    { IsCorrect := false, Reaction := "...", Feedback := "Error logic", ReactionImage := "" }

/-! ### The rule sets, read as data

The verdicts returned by `evaluateTextAnswer`, named, and the ordered
(matcher, verdict) tables that the specification describes: the rules of a scene are
walked top to bottom, the first matcher that succeeds decides, and the catch-all
verdict applies when none does. -/

/-- Rule 1 of scene position 1: the answer names Japan. -/
def jepangVerdict : TextAnswerResponse :=
  { IsCorrect := true, Reaction := "Wah, Jepang! 🇯🇵 Aku suka anime lho.", Feedback := "Sempurna! (完璧です！)", ReactionImage := "Muka_sari_kaget.png" }

/-- Rule 2 of scene position 1: the answer names Indonesia. -/
def indonesiaVerdict : TextAnswerResponse :=
  { IsCorrect := true, Reaction := "Oh, orang lokal ternyata!", Feedback := "Benar! (正解です)", ReactionImage := "Muka_sari_senang.png" }

/-- Rule 3 of scene position 1: the answer names a dish, not a place. -/
def rendangVerdict : TextAnswerResponse :=
  { IsCorrect := false, Reaction := "Eh rendang? Daerah mana itu... 🍛 Itu nama makanan kali!", Feedback := "Salah konteks. Rendang itu makanan wkwk. (それは食べ物です。場所ではありません ww)", ReactionImage := "Muka_sari_bingung.png" }

/-- Rule 4 of scene position 1: the answer mentions soap. -/
def sabunVerdict : TextAnswerResponse :=
  { IsCorrect := false, Reaction := "...kamu gak papa? Kepalamu terbentur?", Feedback := "Jawaban sangat aneh. (変な答えです。大丈夫ですか？)", ReactionImage := "Muka_sari_kaget.png" }

/-- The catch-all verdict of scene position 1. -/
def asalCatchAll : TextAnswerResponse :=
  { IsCorrect := false, Reaction := "Hmm, aku belum pernah dengar nama daerah itu.", Feedback := "Coba jawab dengan nama negara atau kota. (国や都市の名前で答えてみてください)", ReactionImage := "Muka_sari_bingung.png" }

/-- The only rule of scene position 3: the answer holds a digit. -/
def angkaVerdict : TextAnswerResponse :=
  { IsCorrect := true, Reaction := "Ooh segitu. Masih semangat muda ya!", Feedback := "Angka diterima. (数字が確認できました。OKです)", ReactionImage := "Muka_sari_happy.png" }

/-- The catch-all verdict of scene position 3. -/
def umurCatchAll : TextAnswerResponse :=
  { IsCorrect := false, Reaction := "Itu bukan angka deh kayaknya...", Feedback := "Tulis menggunakan angka. (数字を使って書いてください)", ReactionImage := "Muka_sari_bingung.png" }

/-- The degenerate verdict of a scene position without rules. -/
def errorVerdict : TextAnswerResponse :=
  { IsCorrect := false, Reaction := "...", Feedback := "Error logic", ReactionImage := "" }

/-- EvaluationRule: a matcher on the normalised answer and the verdict it selects. -/
structure EvaluationRule where
  matcher : String → Bool
  verdict : TextAnswerResponse

/-- A matcher that tests containment of one or more literal substrings. -/
def containsOneOf (patterns : List String) (normalized : String) : Bool :=
  patterns.any (fun p => Contains normalized p)

/-- The rule set of a scene: its ordered rules and its terminal catch-all. -/
structure RuleSet where
  rules : List EvaluationRule
  catchAll : TextAnswerResponse

/-- The evaluation order of the specification: walk the rules in the authored order,
the first matcher that succeeds gives the verdict, the catch-all applies when none
does. -/
def applyRules : List EvaluationRule → TextAnswerResponse → String → TextAnswerResponse
  | [], catchAll, _ => catchAll
  | r :: rest, catchAll, normalized =>
    if r.matcher normalized then r.verdict else applyRules rest catchAll normalized

/-- The rules of scene position 1 in the authored order. -/
def asalRuleSet : RuleSet :=
  { rules := [
      { matcher := containsOneOf ["jepang", "japan"], verdict := jepangVerdict },
      { matcher := containsOneOf ["indonesia"], verdict := indonesiaVerdict },
      { matcher := containsOneOf ["rendang"], verdict := rendangVerdict },
      { matcher := containsOneOf ["sabun"], verdict := sabunVerdict } ]
    catchAll := asalCatchAll }

/-- The rules of scene position 3. -/
def umurRuleSet : RuleSet :=
  { rules := [
      { matcher := fun normalized => ContainsAny normalized "0123456789", verdict := angkaVerdict } ]
    catchAll := umurCatchAll }

/-- The scene positions that have a rule set. -/
def ruleSets : List (Int × RuleSet) :=
  [(1, asalRuleSet), (3, umurRuleSet)]

/-- Every verdict a rule set can produce. -/
def RuleSet.verdicts (rs : RuleSet) : List TextAnswerResponse :=
  rs.rules.map (fun r => r.verdict) ++ [rs.catchAll]

/-! ## The tutor bridge -/

/-- A Go pointer: `nil`, or the address of a value. -/
inductive Ptr (α : Type) where
  | nil : Ptr α
  | addr (value : α) : Ptr α
  deriving DecidableEq, Repr

/-- What the program does instead of returning when it dereferences `nil`. -/
inductive Panic where
  | nilPointerDereference : Panic
  deriving DecidableEq, Repr

/-- `genai.Part`: a content segment. It is an interface; `genai.Text` is a string, and
any other implementation is represented by the text that `%s` formatting gives it. -/
inductive Part where
  | Text (text : String) : Part
  | Other (formatted : String) : Part
  deriving DecidableEq, Repr

/-- `genai.Content`: the segments of one candidate. -/
structure Content where
  Parts : List Part
  deriving DecidableEq, Repr

/-- `genai.Candidate`; its `Content` field has the pointer type `*genai.Content`. -/
structure Candidate where
  Content : Ptr Content
  deriving DecidableEq, Repr

/-- `genai.GenerateContentResponse`; `Candidates` has the type `[]*genai.Candidate`. -/
structure GenerateContentResponse where
  Candidates : List (Ptr Candidate)
  deriving DecidableEq, Repr

/-- The content segments that a candidate carries: those of its content, and none when
it has no content. -/
def Candidate.segments (candidate : Candidate) : List Part :=
  match candidate.Content with
  | Ptr.nil => []
  | Ptr.addr content => content.Parts

/-- `fmt.Sprintf("%s", part)`. -/
def sprintfS : Part → String
  | Part.Text text => text
  | Part.Other formatted => formatted

/-- The prompt of `callRealGemini`: the fixed template with the two values inserted
verbatim at its `%s` slots. -/
def prompt (contextInfo userQuery : String) : String :=
  "\n    Kamu adalah 'Sensei', asisten guru bahasa Indonesia yang ramah.\n    Kamu tahu sangat sulit untuk belajar bahasa indonesia jika kamu adalah orang jepang, coba posisikan diri kamu\n    sebagai orang jepang yang punya pengalaman mengajar bahasa indonesia.\n    \n    [KONTEKS CERITA SAAT INI]\n    "
    ++ contextInfo
    ++ "\n\n    [PERTANYAAN USER]\n    "
    ++ userQuery
    ++ "\n\n    [INSTRUKSI]\n    Jawablah pertanyaan user dengan singkat, jelas, dan ramah.\n    Jika user bertanya soal bahasa/grammar, jelaskan alasannya.\n    Jangan menjawab terlalu panjang (maksimal 2-3 kalimat). Kamu ditargetkan untuk orang yang belajar Bahasa Indonesia menggunakan Bahasa Jepang, jadi gunakanlah Bahasa Jepang sebagai main.\n    Tetapi kadang, jelaskan juga menggunakan bahasa indonesia dan bahasa inggris. Tergantung pertanyaan mereka dalam bahasa apa duluan.\n    "

/-- The tutor bridge, `callRealGemini` of `main.go`. The completion call
`aiModel.GenerateContent` is the parameter `GenerateContent`: given the prompt it
either fails with an error or yields a response. The value is the reply string, or
the panic that leaves the function. Logging is not modelled. -/
def callRealGemini (GenerateContent : String → Except String GenerateContentResponse)
    (contextInfo userQuery : String) : Except Panic String :=
  match GenerateContent (prompt contextInfo userQuery) with
  | Except.error _ => Except.ok "Maaf, koneksi otak saya sedang terputus. Coba lagi nanti ya!"
  | Except.ok resp =>
    match resp.Candidates with
    | [] => Except.ok "Hmm, saya tidak tahu harus jawab apa."
    | Ptr.nil :: _ => Except.error Panic.nilPointerDereference
    | Ptr.addr candidate :: _ =>
      match candidate.Content with
      | Ptr.nil => Except.error Panic.nilPointerDereference
      | Ptr.addr content =>
        match content.Parts with
        | [] => Except.ok "Hmm, saya tidak tahu harus jawab apa."
        | part :: _ => Except.ok (sprintfS part)

/-! ## Choice resolution -/

/-- The error signal of choice resolution. -/
inductive ChoiceError where
  | IndexOutOfRange : ChoiceError
  deriving DecidableEq, Repr

/-- Modelled from the spec: `main.go` declares `Option` and `Scene` and serves the
lesson, but has no function that resolves a choice. This is the
`resolveChoice(scene, optionIndex) -> Option | IndexOutOfRange` of the specification:
a bounds check followed by a lookup that returns the authored option unchanged. -/
def resolveChoice (scene : Scene) (optionIndex : Int) : Except ChoiceError Option :=
  if 0 ≤ optionIndex ∧ optionIndex < scene.Options.length then
    match scene.Options[optionIndex.toNat]? with
    | some option => Except.ok option
    | none => Except.error ChoiceError.IndexOutOfRange
  else Except.error ChoiceError.IndexOutOfRange

/-! ## Properties of the library functions -/

/-- The case table that leaves every rune above ASCII unchanged; closed evaluations on
ASCII answers use it, since they never consult the table. -/
def identityCaseTable : Char → Char := fun r => r

/-- The assumption on the case tables used for the digit check: no rune above ASCII is
lowercased to one of `0`..`9`. -/
def NoDigitFromTable (caseTable : Char → Char) : Prop :=
  ∀ r : Char, 127 < r.toNat → (caseTable r).isDigit = false

/-- The assumption on the case tables used for idempotence: what the table returns is
already in lower case. -/
def TableYieldsLower (caseTable : Char → Char) : Prop :=
  ∀ r : Char, 127 < r.toNat → unicodeToLower caseTable (caseTable r) = caseTable r

theorem ascii_cases (P : Char → Prop) (h : ∀ n : Fin 128, P (Char.ofNat n.val))
    (c : Char) (hc : c.toNat ≤ 127) : P c := by
  have h1 := h ⟨c.toNat, by omega⟩
  simpa using h1

theorem unicodeToLower_ascii (caseTable : Char → Char) (r : Char) (hr : r.toNat ≤ 127) :
    unicodeToLower caseTable r = unicodeToLower identityCaseTable r := by
  simp [unicodeToLower, hr]

theorem unicodeToLower_above (caseTable : Char → Char) (r : Char) (hr : 127 < r.toNat) :
    unicodeToLower caseTable r = caseTable r := by
  have h : ¬ r.toNat ≤ 127 := by omega
  simp [unicodeToLower, h]

theorem digits_contains (c : Char) : "0123456789".data.contains c = c.isDigit := by
  by_cases hc : c.toNat ≤ 127
  · revert hc
    revert c
    intro c hc
    exact ascii_cases (fun c => "0123456789".data.contains c = c.isDigit) (by decide) c hc
  · have h1 : c.isDigit = false := by
      simp only [Char.isDigit, Bool.and_eq_false_imp, decide_eq_true_eq, decide_eq_false_iff_not]
      intro _
      have : c.val.toNat = c.toNat := rfl
      intro h2
      have h3 : c.val.toNat ≤ 57 := h2
      omega
    rw [h1]
    cases hx : "0123456789".data.contains c with
    | false => rfl
    | true =>
      exfalso
      have hm : c ∈ "0123456789".data := by simpa using hx
      have : c.toNat ≤ 57 := by
        simp only [List.mem_cons, List.mem_singleton] at hm
        rcases hm with h | h | h | h | h | h | h | h | h | h | h <;> first | (subst h; decide) | simp at h
      omega

theorem unicodeToLower_isDigit (caseTable : Char → Char) (hT : NoDigitFromTable caseTable)
    (r : Char) : (unicodeToLower caseTable r).isDigit = r.isDigit := by
  by_cases hr : r.toNat ≤ 127
  · rw [unicodeToLower_ascii caseTable r hr]
    exact ascii_cases
      (fun c => (unicodeToLower identityCaseTable c).isDigit = c.isDigit) (by decide) r hr
  · have hr1 : 127 < r.toNat := by omega
    rw [unicodeToLower_above caseTable r hr1, hT r hr1, ← digits_contains]
    cases hx : "0123456789".data.contains r with
    | false => rfl
    | true =>
      exfalso
      have hm : r ∈ "0123456789".data := by simpa using hx
      have : r.toNat ≤ 57 := by
        simp only [List.mem_cons, List.mem_singleton] at hm
        rcases hm with h | h | h | h | h | h | h | h | h | h | h <;> first | (subst h; decide) | simp at h
      omega

theorem unicodeToLower_idem (caseTable : Char → Char) (hT : TableYieldsLower caseTable)
    (r : Char) :
    unicodeToLower caseTable (unicodeToLower caseTable r) = unicodeToLower caseTable r := by
  by_cases hr : r.toNat ≤ 127
  · have h1 : (unicodeToLower identityCaseTable r).toNat ≤ 127 :=
      ascii_cases (fun c => (unicodeToLower identityCaseTable c).toNat ≤ 127) (by decide) r hr
    rw [unicodeToLower_ascii caseTable r hr, unicodeToLower_ascii caseTable _ h1]
    exact ascii_cases
      (fun c => unicodeToLower identityCaseTable (unicodeToLower identityCaseTable c)
        = unicodeToLower identityCaseTable c) (by decide) r hr
  · have hr1 : 127 < r.toNat := by omega
    rw [unicodeToLower_above caseTable r hr1]
    exact hT r hr1

theorem ToLower_idem (caseTable : Char → Char) (hT : TableYieldsLower caseTable)
    (s : String) : ToLower caseTable (ToLower caseTable s) = ToLower caseTable s := by
  simp only [ToLower, List.map_map]
  congr 1
  apply List.map_congr_left
  intro r _
  exact unicodeToLower_idem caseTable hT r

theorem ContainsAny_ToLower (caseTable : Char → Char) (hT : NoDigitFromTable caseTable)
    (s : String) :
    ContainsAny (ToLower caseTable s) "0123456789" = ContainsAny s "0123456789" := by
  have hd : ∀ c : Char, ['0', '1', '2', '3', '4', '5', '6', '7', '8', '9'].contains c = c.isDigit :=
    digits_contains
  simp only [ContainsAny, ToLower, List.any_map]
  congr 1
  funext r
  simp only [Function.comp, hd]
  exact unicodeToLower_isDigit caseTable hT r

theorem containsRunes_iff (s substr : List Char) :
    containsRunes s substr = true ↔ ∃ before after, s = before ++ substr ++ after := by
  induction s with
  | nil =>
    simp only [containsRunes, List.isEmpty_iff]
    constructor
    · intro h
      exact ⟨[], [], by simp [h]⟩
    · rintro ⟨before, after, h⟩
      have h1 := congrArg List.length h
      simp only [List.length_nil, List.length_append] at h1
      exact List.length_eq_zero.mp (by omega)
  | cons c cs ih =>
    simp only [containsRunes, Bool.or_eq_true, ih, List.isPrefixOf_iff_prefix]
    constructor
    · rintro (⟨t, ht⟩ | ⟨before, after, h⟩)
      · exact ⟨[], t, by simpa using ht.symm⟩
      · exact ⟨c :: before, after, by simp [h]⟩
    · rintro ⟨before, after, h⟩
      cases before with
      | nil => exact Or.inl ⟨after, by simpa using h.symm⟩
      | cons x before =>
        simp only [List.cons_append, List.cons.injEq] at h
        exact Or.inr ⟨before, after, h.2⟩

theorem Contains_iff (s substr : String) :
    Contains s substr = true ↔ ∃ before after, s.data = before ++ substr.data ++ after :=
  containsRunes_iff s.data substr.data

theorem isDigit_false_above (r : Char) (hr : 127 < r.toNat) : r.isDigit = false := by
  simp only [Char.isDigit, Bool.and_eq_false_imp, decide_eq_true_eq, decide_eq_false_iff_not]
  intro _ h2
  have h3 : r.val.toNat ≤ 57 := h2
  have h4 : r.val.toNat = r.toNat := rfl
  omega

theorem noDigitFromTable_identity : NoDigitFromTable identityCaseTable :=
  fun r hr => isDigit_false_above r hr

theorem tableYieldsLower_identity : TableYieldsLower identityCaseTable :=
  fun r hr => unicodeToLower_above identityCaseTable r hr

theorem ContainsAny_iff_mem (s chars : String) :
    ContainsAny s chars = true ↔ ∃ c ∈ s.data, c ∈ chars.data := by
  simp [ContainsAny, List.any_eq_true]

/-! ## The free-text evaluator: scene position 1 -/

theorem evaluateTextAnswer_asal_applyRules (caseTable : Char → Char) (answer : String) :
    evaluateTextAnswer caseTable 1 answer
      = applyRules asalRuleSet.rules asalRuleSet.catchAll (ToLower caseTable answer) := by
  simp only [evaluateTextAnswer, asalRuleSet, applyRules, containsOneOf, List.any_cons,
    List.any_nil, Bool.or_false, if_true]
  rfl

/-- C1: at scene position 1 the evaluator returns, for every answer, the verdict of the
first rule in the authored order (1: jepang or japan, 2: indonesia, 3: rendang,
4: sabun) whose pattern occurs in the lowercased answer, and the catch-all verdict when
none occurs: it equals the walk over the ordered rule table, and, rule by rule, a rule
decides as soon as its pattern occurs and no earlier pattern does. "rendang dari
Jepang" matches rules 1 and 3 and gets the verdict of rule 1; "Saya dari Jepang" is
correct with the Jepang reaction; "Rendang" is incorrect with the food-not-place
feedback. -/
theorem evaluateTextAnswer_asal_first_match (caseTable : Char → Char) (answer : String) :
    evaluateTextAnswer caseTable 1 answer
        = applyRules asalRuleSet.rules asalRuleSet.catchAll (ToLower caseTable answer)
    ∧ ((Contains (ToLower caseTable answer) "jepang" = true
          ∨ Contains (ToLower caseTable answer) "japan" = true) →
        evaluateTextAnswer caseTable 1 answer = jepangVerdict)
    ∧ (Contains (ToLower caseTable answer) "jepang" = false →
        Contains (ToLower caseTable answer) "japan" = false →
        Contains (ToLower caseTable answer) "indonesia" = true →
        evaluateTextAnswer caseTable 1 answer = indonesiaVerdict)
    ∧ (Contains (ToLower caseTable answer) "jepang" = false →
        Contains (ToLower caseTable answer) "japan" = false →
        Contains (ToLower caseTable answer) "indonesia" = false →
        Contains (ToLower caseTable answer) "rendang" = true →
        evaluateTextAnswer caseTable 1 answer = rendangVerdict)
    ∧ (Contains (ToLower caseTable answer) "jepang" = false →
        Contains (ToLower caseTable answer) "japan" = false →
        Contains (ToLower caseTable answer) "indonesia" = false →
        Contains (ToLower caseTable answer) "rendang" = false →
        Contains (ToLower caseTable answer) "sabun" = true →
        evaluateTextAnswer caseTable 1 answer = sabunVerdict)
    ∧ (Contains (ToLower caseTable answer) "jepang" = false →
        Contains (ToLower caseTable answer) "japan" = false →
        Contains (ToLower caseTable answer) "indonesia" = false →
        Contains (ToLower caseTable answer) "rendang" = false →
        Contains (ToLower caseTable answer) "sabun" = false →
        evaluateTextAnswer caseTable 1 answer = asalCatchAll)
    ∧ (Contains (ToLower caseTable "rendang dari Jepang") "jepang" = true
        ∧ Contains (ToLower caseTable "rendang dari Jepang") "rendang" = true
        ∧ evaluateTextAnswer caseTable 1 "rendang dari Jepang" = jepangVerdict)
    ∧ evaluateTextAnswer caseTable 1 "Saya dari Jepang"
        = { IsCorrect := true, Reaction := "Wah, Jepang! 🇯🇵 Aku suka anime lho.", Feedback := "Sempurna! (完璧です！)", ReactionImage := "Muka_sari_kaget.png" }
    ∧ evaluateTextAnswer caseTable 1 "Rendang"
        = { IsCorrect := false, Reaction := "Eh rendang? Daerah mana itu... 🍛 Itu nama makanan kali!", Feedback := "Salah konteks. Rendang itu makanan wkwk. (それは食べ物です。場所ではありません ww)", ReactionImage := "Muka_sari_bingung.png" } := by
  refine ⟨evaluateTextAnswer_asal_applyRules caseTable answer, ?_, ?_, ?_, ?_, ?_,
    ⟨rfl, rfl, rfl⟩, rfl, rfl⟩
  · rintro (h | h)
    · simp [evaluateTextAnswer, h, jepangVerdict]
    · simp [evaluateTextAnswer, h, jepangVerdict]
  · intro hj hjp hi
    simp [evaluateTextAnswer, hj, hjp, hi, indonesiaVerdict]
  · intro hj hjp hi hr
    simp [evaluateTextAnswer, hj, hjp, hi, hr, rendangVerdict]
  · intro hj hjp hi hr hs
    simp [evaluateTextAnswer, hj, hjp, hi, hr, hs, sabunVerdict]
  · intro hj hjp hi hr hs
    simp [evaluateTextAnswer, hj, hjp, hi, hr, hs, asalCatchAll]

/-- Witness for C1: "rendang dari Jepang" contains the patterns of rules 1 and 3 and gets
the verdict of rule 1; "Saya dari Jepang" is correct; "Rendang" gets the verdict of
rule 3, which is incorrect; "Bandung" gets the catch-all. -/
theorem evaluateTextAnswer_asal_first_match_witness :
    Contains (ToLower identityCaseTable "rendang dari Jepang") "rendang" = true
    ∧ evaluateTextAnswer identityCaseTable 1 "rendang dari Jepang" = jepangVerdict
    ∧ evaluateTextAnswer identityCaseTable 1 "Saya dari Jepang" = jepangVerdict
    ∧ jepangVerdict.IsCorrect = true
    ∧ evaluateTextAnswer identityCaseTable 1 "Rendang" = rendangVerdict
    ∧ rendangVerdict.IsCorrect = false
    ∧ evaluateTextAnswer identityCaseTable 1 "Bandung" = asalCatchAll :=
  ⟨rfl,
    (evaluateTextAnswer_asal_first_match identityCaseTable "rendang dari Jepang").2.1
      (Or.inl rfl),
    (evaluateTextAnswer_asal_first_match identityCaseTable "Saya dari Jepang").2.1
      (Or.inl rfl),
    rfl,
    (evaluateTextAnswer_asal_first_match identityCaseTable "Rendang").2.2.2.1
      rfl rfl rfl rfl,
    rfl,
    (evaluateTextAnswer_asal_first_match identityCaseTable "Bandung").2.2.2.2.2.1
      rfl rfl rfl rfl rfl⟩

/-! ## The free-text evaluator: scene position 3 -/

/-- C2: at scene position 3 the verdict is correct exactly when the raw answer holds one
of the characters 0-9, and lowercasing neither adds nor removes a digit (the case table
being one that maps no rune above ASCII to a digit). -/
theorem evaluateTextAnswer_umur_digit (caseTable : Char → Char)
    (hT : NoDigitFromTable caseTable) (answer : String) :
    ((evaluateTextAnswer caseTable 3 answer).IsCorrect = true
        ↔ ∃ c ∈ answer.data, c ∈ "0123456789".data)
    ∧ ContainsAny (ToLower caseTable answer) "0123456789" = ContainsAny answer "0123456789" := by
  have hl := ContainsAny_ToLower caseTable hT answer
  refine ⟨?_, hl⟩
  rw [← ContainsAny_iff_mem, ← hl]
  have h31 : ¬ ((3 : Int) = 1) := by decide
  simp only [evaluateTextAnswer, h31, if_false, if_true]
  cases ContainsAny (ToLower caseTable answer) "0123456789" <;> simp

/-- Witness for C2: "25" is accepted, "dua puluh" and the empty answer are rejected. -/
theorem evaluateTextAnswer_umur_digit_witness :
    NoDigitFromTable identityCaseTable
    ∧ (evaluateTextAnswer identityCaseTable 3 "25").IsCorrect = true
    ∧ (evaluateTextAnswer identityCaseTable 3 "dua puluh").IsCorrect = false
    ∧ (evaluateTextAnswer identityCaseTable 3 "").IsCorrect = false :=
  ⟨noDigitFromTable_identity,
    (evaluateTextAnswer_umur_digit identityCaseTable noDigitFromTable_identity "25").1.mpr
      ⟨'2', by decide, by decide⟩,
    Bool.eq_false_iff.mpr (fun hc => absurd
      ((evaluateTextAnswer_umur_digit identityCaseTable noDigitFromTable_identity "dua puluh").1.mp hc)
      (by decide)),
    Bool.eq_false_iff.mpr (fun hc => absurd
      ((evaluateTextAnswer_umur_digit identityCaseTable noDigitFromTable_identity "").1.mp hc)
      (by decide))⟩

/-! ## The free-text evaluator: positions without rules -/

/-- C3: for every scene position other than 1 and 3, negative ones and positions past
the end of the lesson included, and every answer, the evaluator returns the degenerate
verdict with IsCorrect false and Feedback "Error logic". -/
theorem evaluateTextAnswer_unknown_scene (caseTable : Char → Char) (sceneIndex : Int)
    (answer : String) (h1 : sceneIndex ≠ 1) (h3 : sceneIndex ≠ 3) :
    evaluateTextAnswer caseTable sceneIndex answer
      = { IsCorrect := false, Reaction := "...", Feedback := "Error logic", ReactionImage := "" } := by
  simp only [evaluateTextAnswer, h1, h3, if_false]

/-- Witness for C3: positions -1, 0 and 5 with arbitrary answers. -/
theorem evaluateTextAnswer_unknown_scene_witness :
    evaluateTextAnswer identityCaseTable (-1) "Jepang" = errorVerdict
    ∧ evaluateTextAnswer identityCaseTable 0 "25" = errorVerdict
    ∧ evaluateTextAnswer identityCaseTable 5 "" = errorVerdict :=
  ⟨evaluateTextAnswer_unknown_scene identityCaseTable (-1) "Jepang" (by decide) (by decide),
    evaluateTextAnswer_unknown_scene identityCaseTable 0 "25" (by decide) (by decide),
    evaluateTextAnswer_unknown_scene identityCaseTable 5 "" (by decide) (by decide)⟩

/-! ## The free-text evaluator and the rule sets of the text scenes -/

theorem evaluateTextAnswer_umur_applyRules (caseTable : Char → Char) (answer : String) :
    evaluateTextAnswer caseTable 3 answer
      = applyRules umurRuleSet.rules umurRuleSet.catchAll (ToLower caseTable answer) := by
  have h31 : ¬ ((3 : Int) = 1) := by decide
  simp only [evaluateTextAnswer, h31, umurRuleSet, applyRules, if_false, if_true]
  rfl

theorem applyRules_mem (rules : List EvaluationRule) (catchAll : TextAnswerResponse)
    (normalized : String) :
    applyRules rules catchAll normalized ∈ rules.map (fun r => r.verdict) ++ [catchAll] := by
  induction rules with
  | nil => simp [applyRules]
  | cons r rest ih =>
    by_cases h : r.matcher normalized = true
    · simp [applyRules, h]
    · simp only [applyRules, h, List.map_cons, List.cons_append, List.mem_cons]
      exact Or.inr ih

/-- C4: every scene of lesson1 whose input mode is "text" has, at its position, a rule
set; for every answer the evaluator returns the verdict that walking this rule set
gives, one of its verdicts, with non-empty Reaction and Feedback and never the
"Error logic" verdict; for the empty answer it is the catch-all verdict of the scene,
which has IsCorrect false. -/
theorem evaluateTextAnswer_text_scene_covered (caseTable : Char → Char) (i : Nat)
    (scene : Scene) (hs : lesson1.Scenes[i]? = some scene) (ht : scene.InputType = "text")
    (answer : String) :
    ∃ rs, ruleSets.lookup (i : Int) = some rs
      ∧ evaluateTextAnswer caseTable i answer
          = applyRules rs.rules rs.catchAll (ToLower caseTable answer)
      ∧ evaluateTextAnswer caseTable i answer ∈ rs.verdicts
      ∧ (evaluateTextAnswer caseTable i answer).Reaction ≠ ""
      ∧ (evaluateTextAnswer caseTable i answer).Feedback ≠ ""
      ∧ (evaluateTextAnswer caseTable i answer).Feedback ≠ "Error logic"
      ∧ evaluateTextAnswer caseTable i "" = rs.catchAll
      ∧ rs.catchAll.IsCorrect = false := by
  have key : ∀ (pos : Int) (rs : RuleSet), ruleSets.lookup pos = some rs →
      (∀ v ∈ rs.verdicts, v.Reaction ≠ "" ∧ v.Feedback ≠ "" ∧ v.Feedback ≠ "Error logic") →
      evaluateTextAnswer caseTable pos answer
          = applyRules rs.rules rs.catchAll (ToLower caseTable answer) →
      evaluateTextAnswer caseTable pos "" = rs.catchAll → rs.catchAll.IsCorrect = false →
      ∃ rs, ruleSets.lookup pos = some rs
        ∧ evaluateTextAnswer caseTable pos answer
            = applyRules rs.rules rs.catchAll (ToLower caseTable answer)
        ∧ evaluateTextAnswer caseTable pos answer ∈ rs.verdicts
        ∧ (evaluateTextAnswer caseTable pos answer).Reaction ≠ ""
        ∧ (evaluateTextAnswer caseTable pos answer).Feedback ≠ ""
        ∧ (evaluateTextAnswer caseTable pos answer).Feedback ≠ "Error logic"
        ∧ evaluateTextAnswer caseTable pos "" = rs.catchAll
        ∧ rs.catchAll.IsCorrect = false := by
    intro pos rs hl hv he hc hf
    have hm : evaluateTextAnswer caseTable pos answer ∈ rs.verdicts := by
      rw [he]
      exact applyRules_mem rs.rules rs.catchAll _
    exact ⟨rs, hl, he, hm, (hv _ hm).1, (hv _ hm).2.1, (hv _ hm).2.2, hc, hf⟩
  match i, hs with
  | 0, hs =>
    have h0 : scene.InputType = "choice" := by
      simp only [lesson1, List.getElem?_cons_zero, Option.some.injEq] at hs
      rw [← hs]
    rw [h0] at ht
    exact absurd ht (by decide)
  | 1, _ =>
    exact key 1 asalRuleSet rfl (by decide)
      (evaluateTextAnswer_asal_applyRules caseTable answer) rfl rfl
  | 2, hs =>
    have h0 : scene.InputType = "choice" := by
      simp only [lesson1, List.getElem?_cons_succ, List.getElem?_cons_zero,
        Option.some.injEq] at hs
      rw [← hs]
    rw [h0] at ht
    exact absurd ht (by decide)
  | 3, _ =>
    exact key 3 umurRuleSet rfl (by decide)
      (evaluateTextAnswer_umur_applyRules caseTable answer) rfl rfl
  | 4, hs =>
    have h0 : scene.InputType = "choice" := by
      simp only [lesson1, List.getElem?_cons_succ, List.getElem?_cons_zero,
        Option.some.injEq] at hs
      rw [← hs]
    rw [h0] at ht
    exact absurd ht (by decide)
  | n + 5, hs =>
    simp [lesson1] at hs

/-- Witness for C4: scene position 1 of lesson1 is a text scene; an answer without any
known pattern gets a verdict of the scene that is not the "Error logic" one. -/
theorem evaluateTextAnswer_text_scene_covered_witness :
    ∃ rs, ruleSets.lookup ((1 : Nat) : Int) = some rs
      ∧ evaluateTextAnswer identityCaseTable (1 : Nat) "Atlantis"
          = applyRules rs.rules rs.catchAll (ToLower identityCaseTable "Atlantis")
      ∧ evaluateTextAnswer identityCaseTable (1 : Nat) "Atlantis" ∈ rs.verdicts
      ∧ (evaluateTextAnswer identityCaseTable (1 : Nat) "Atlantis").Reaction ≠ ""
      ∧ (evaluateTextAnswer identityCaseTable (1 : Nat) "Atlantis").Feedback ≠ ""
      ∧ (evaluateTextAnswer identityCaseTable (1 : Nat) "Atlantis").Feedback ≠ "Error logic"
      ∧ evaluateTextAnswer identityCaseTable (1 : Nat) "" = rs.catchAll
      ∧ rs.catchAll.IsCorrect = false :=
  evaluateTextAnswer_text_scene_covered identityCaseTable 1
    { InputType := "text"
      CharacterName := "Sari"
      CharacterMood := "Muka_sari_senang.png"
      Dialogue := "Salam kenal ya. Ngomong-ngomong, kamu asalnya dari mana?"
      Options := [] }
    rfl rfl "Atlantis"

/-! ## The "sabun" rule -/

/-- Counterexample to C5 as stated: the lowercased "sabun dari Jepang" contains "sabun",
yet the verdict is the one of the earlier "jepang" rule, which differs from the "sabun"
verdict. -/
theorem sabun_answer_with_jepang_verdict :
    (∀ caseTable : Char → Char,
      Contains (ToLower caseTable "sabun dari Jepang") "sabun" = true
      ∧ evaluateTextAnswer caseTable 1 "sabun dari Jepang" = jepangVerdict)
    ∧ jepangVerdict ≠ sabunVerdict
    ∧ jepangVerdict.IsCorrect = true :=
  ⟨fun _ => ⟨rfl, rfl⟩, by decide, rfl⟩

/-- C5 (amended): when the lowercased answer contains "sabun" anywhere, whatever stands
before and after it, and contains none of "jepang", "japan", "indonesia", "rendang",
the evaluator at scene position 1 returns the "sabun" verdict. -/
theorem evaluateTextAnswer_sabun (caseTable : Char → Char) (answer : String)
    (before after : List Char)
    (hs : (ToLower caseTable answer).data = before ++ "sabun".data ++ after)
    (hj : Contains (ToLower caseTable answer) "jepang" = false)
    (hjp : Contains (ToLower caseTable answer) "japan" = false)
    (hi : Contains (ToLower caseTable answer) "indonesia" = false)
    (hr : Contains (ToLower caseTable answer) "rendang" = false) :
    evaluateTextAnswer caseTable 1 answer
      = { IsCorrect := false, Reaction := "...kamu gak papa? Kepalamu terbentur?", Feedback := "Jawaban sangat aneh. (変な答えです。大丈夫ですか？)", ReactionImage := "Muka_sari_kaget.png" } := by
  have hsab : Contains (ToLower caseTable answer) "sabun" = true :=
    (Contains_iff _ _).mpr ⟨before, after, hs⟩
  simp [evaluateTextAnswer, hj, hjp, hi, hr, hsab]

/-- Witness for C5 (amended): "Saya suka SABUN mandi". -/
theorem evaluateTextAnswer_sabun_witness :
    evaluateTextAnswer identityCaseTable 1 "Saya suka SABUN mandi" = sabunVerdict :=
  evaluateTextAnswer_sabun identityCaseTable "Saya suka SABUN mandi"
    "saya suka ".data " mandi".data rfl rfl rfl rfl rfl

/-! ## Dependence on the lowercased answer only -/

/-- C6: the verdict is a function of the scene position and the lowercased answer: two
answers with equal lowercased forms get verdicts equal in every field; and, the case
table returning lower case runes, an answer and its lowercased form get the same
verdict. -/
theorem evaluateTextAnswer_of_lowercased (caseTable : Char → Char) (sceneIndex : Int) :
    (∀ a b : String, ToLower caseTable a = ToLower caseTable b →
      evaluateTextAnswer caseTable sceneIndex a = evaluateTextAnswer caseTable sceneIndex b)
    ∧ (TableYieldsLower caseTable → ∀ a : String,
      evaluateTextAnswer caseTable sceneIndex (ToLower caseTable a)
        = evaluateTextAnswer caseTable sceneIndex a) := by
  have h1 : ∀ a b : String, ToLower caseTable a = ToLower caseTable b →
      evaluateTextAnswer caseTable sceneIndex a
        = evaluateTextAnswer caseTable sceneIndex b := by
    intro a b h
    simp only [evaluateTextAnswer, h]
  exact ⟨h1, fun hT a => h1 _ _ (ToLower_idem caseTable hT a)⟩

/-- Witness for C6: "JEPANG" and "jepang" at scene position 1, and "JEPANG" against its
lowercased form. -/
theorem evaluateTextAnswer_of_lowercased_witness :
    ToLower identityCaseTable "JEPANG" = ToLower identityCaseTable "jepang"
    ∧ TableYieldsLower identityCaseTable
    ∧ evaluateTextAnswer identityCaseTable 1 "JEPANG"
        = evaluateTextAnswer identityCaseTable 1 "jepang"
    ∧ evaluateTextAnswer identityCaseTable 1 (ToLower identityCaseTable "JEPANG")
        = evaluateTextAnswer identityCaseTable 1 "JEPANG" :=
  ⟨rfl, tableYieldsLower_identity,
    (evaluateTextAnswer_of_lowercased identityCaseTable 1).1 "JEPANG" "jepang" rfl,
    (evaluateTextAnswer_of_lowercased identityCaseTable 1).2 tableYieldsLower_identity "JEPANG"⟩

/-! ## The tutor bridge -/

/-- The fallbacks that `callRealGemini` does return: when the completion call fails,
whatever the error, the connection-failure string; when it succeeds with no candidate,
or with a first candidate whose content is present and has no segment, the no-answer
string; the two strings differ and the first is not empty. -/
theorem callRealGemini_fallbacks
    (GenerateContent : String → Except String GenerateContentResponse)
    (contextInfo userQuery : String) :
    (∀ err : String, GenerateContent (prompt contextInfo userQuery) = Except.error err →
      callRealGemini GenerateContent contextInfo userQuery
        = Except.ok "Maaf, koneksi otak saya sedang terputus. Coba lagi nanti ya!")
    ∧ (∀ resp : GenerateContentResponse,
        GenerateContent (prompt contextInfo userQuery) = Except.ok resp →
        resp.Candidates = [] →
        callRealGemini GenerateContent contextInfo userQuery
          = Except.ok "Hmm, saya tidak tahu harus jawab apa.")
    ∧ (∀ (resp : GenerateContentResponse) (candidate : Candidate)
        (rest : List (Ptr Candidate)) (content : Content),
        GenerateContent (prompt contextInfo userQuery) = Except.ok resp →
        resp.Candidates = Ptr.addr candidate :: rest →
        candidate.Content = Ptr.addr content →
        content.Parts = [] →
        callRealGemini GenerateContent contextInfo userQuery
          = Except.ok "Hmm, saya tidak tahu harus jawab apa.")
    ∧ "Maaf, koneksi otak saya sedang terputus. Coba lagi nanti ya!"
        ≠ "Hmm, saya tidak tahu harus jawab apa."
    ∧ "Maaf, koneksi otak saya sedang terputus. Coba lagi nanti ya!" ≠ "" := by
  refine ⟨?_, ?_, ?_, by decide, by decide⟩
  · intro err h
    simp only [callRealGemini, h]
  · intro resp h hc
    simp only [callRealGemini, h, hc]
  · intro resp candidate rest content h hc hcontent hparts
    simp only [callRealGemini, h, hc, hcontent, hparts]

/-- The fallbacks on three outcomes: a call that fails with a 404, a response without
candidates, and a response whose only candidate has a content without segments. -/
theorem callRealGemini_fallbacks_witness :
    callRealGemini (fun _ => Except.error "googleapi: Error 404") "Sari asks the name" "apa?"
        = Except.ok "Maaf, koneksi otak saya sedang terputus. Coba lagi nanti ya!"
    ∧ callRealGemini (fun _ => Except.ok { Candidates := [] }) "Sari asks the name" "apa?"
        = Except.ok "Hmm, saya tidak tahu harus jawab apa."
    ∧ callRealGemini
          (fun _ => Except.ok { Candidates := [Ptr.addr { Content := Ptr.addr { Parts := [] } }] })
          "Sari asks the name" "apa?"
        = Except.ok "Hmm, saya tidak tahu harus jawab apa." :=
  ⟨(callRealGemini_fallbacks (fun _ => Except.error "googleapi: Error 404")
      "Sari asks the name" "apa?").1 "googleapi: Error 404" rfl,
    (callRealGemini_fallbacks (fun _ => Except.ok { Candidates := [] })
      "Sari asks the name" "apa?").2.1 { Candidates := [] } rfl rfl,
    (callRealGemini_fallbacks
      (fun _ => Except.ok { Candidates := [Ptr.addr { Content := Ptr.addr { Parts := [] } }] })
      "Sari asks the name" "apa?").2.2.1
      { Candidates := [Ptr.addr { Content := Ptr.addr { Parts := [] } }] }
      { Content := Ptr.addr { Parts := [] } } [] { Parts := [] } rfl rfl rfl rfl⟩

/-- C7 (the code at the failing input): the completion call succeeds and its first
candidate has zero content segments, carrying no content; `callRealGemini` does not
return the no-answer string "Hmm, saya tidak tahu harus jawab apa.", nor the
connection-failure string: it panics on the nil dereference, for every context string
and every user query. -/
theorem callRealGemini_zero_segments_no_fallback (contextInfo userQuery : String) :
    Candidate.segments { Content := Ptr.nil } = []
    ∧ callRealGemini (fun _ => Except.ok { Candidates := [Ptr.addr { Content := Ptr.nil }] })
          contextInfo userQuery
        ≠ Except.ok "Hmm, saya tidak tahu harus jawab apa."
    ∧ callRealGemini (fun _ => Except.ok { Candidates := [Ptr.addr { Content := Ptr.nil }] })
          contextInfo userQuery
        ≠ Except.ok "Maaf, koneksi otak saya sedang terputus. Coba lagi nanti ya!"
    ∧ callRealGemini (fun _ => Except.ok { Candidates := [Ptr.addr { Content := Ptr.nil }] })
          contextInfo userQuery
        = Except.error Panic.nilPointerDereference :=
  ⟨rfl, fun h => Except.noConfusion h, fun h => Except.noConfusion h, rfl⟩

/-- C8 (the code at the failing input): when the completion call succeeds with one
candidate that carries no content at all, `callRealGemini` does not return a reply:
reading `resp.Candidates[0].Content.Parts` dereferences nil and the panic leaves the
function, for every context string and every user query. -/
theorem callRealGemini_nil_content_panics (contextInfo userQuery : String) :
    callRealGemini (fun _ => Except.ok { Candidates := [Ptr.addr { Content := Ptr.nil }] })
        contextInfo userQuery
      = Except.error Panic.nilPointerDereference
    ∧ ∀ reply : String,
      callRealGemini (fun _ => Except.ok { Candidates := [Ptr.addr { Content := Ptr.nil }] })
        contextInfo userQuery
      ≠ Except.ok reply :=
  ⟨rfl, fun _ h => Except.noConfusion h⟩

theorem callRealGemini_returns_of_content
    (GenerateContent : String → Except String GenerateContentResponse)
    (contextInfo userQuery : String)
    (h : ∀ resp, GenerateContent (prompt contextInfo userQuery) = Except.ok resp →
      ∀ c ∈ resp.Candidates.head?, ∃ candidate content,
        c = Ptr.addr candidate ∧ candidate.Content = Ptr.addr content) :
    ∃ reply, callRealGemini GenerateContent contextInfo userQuery = Except.ok reply := by
  cases hg : GenerateContent (prompt contextInfo userQuery) with
  | error err =>
    exact ⟨"Maaf, koneksi otak saya sedang terputus. Coba lagi nanti ya!",
      by simp only [callRealGemini, hg]⟩
  | ok resp =>
    have h1 := h resp hg
    cases hc : resp.Candidates with
    | nil =>
      exact ⟨"Hmm, saya tidak tahu harus jawab apa.", by simp only [callRealGemini, hg, hc]⟩
    | cons c rest =>
      obtain ⟨candidate, content, hcand, hcontent⟩ := h1 c (by simp [hc])
      subst hcand
      cases hp : content.Parts with
      | nil =>
        exact ⟨"Hmm, saya tidak tahu harus jawab apa.",
          by simp only [callRealGemini, hg, hc, hcontent, hp]⟩
      | cons part _ =>
        exact ⟨sprintfS part, by simp only [callRealGemini, hg, hc, hcontent, hp]⟩

/-! ## Choice resolution -/

/-- C9: resolving a choice with an index inside the bounds returns the authored option
at that position unchanged, and an index below 0 or not below the number of options
gives the index error, never an option. -/
theorem resolveChoice_lookup (scene : Scene) (optionIndex : Int) :
    (0 ≤ optionIndex → optionIndex < scene.Options.length →
      ∃ option, scene.Options[optionIndex.toNat]? = some option
        ∧ resolveChoice scene optionIndex = Except.ok option)
    ∧ ((optionIndex < 0 ∨ (scene.Options.length : Int) ≤ optionIndex) →
      resolveChoice scene optionIndex = Except.error ChoiceError.IndexOutOfRange) := by
  constructor
  · intro h0 h1
    have hlt : optionIndex.toNat < scene.Options.length := by omega
    refine ⟨scene.Options[optionIndex.toNat], List.getElem?_eq_getElem hlt, ?_⟩
    simp only [resolveChoice, h0, h1, and_self, if_true, List.getElem?_eq_getElem hlt]
  · intro h
    have hn : ¬ (0 ≤ optionIndex ∧ optionIndex < scene.Options.length) := by omega
    simp only [resolveChoice, hn, if_false]

/-- Witness for C9: the first scene of lesson1 has 2 options; index 0 returns option 0
verbatim, with IsCorrect true; indices 2 and -1 give the index error. -/
theorem resolveChoice_lookup_witness :
    ∃ scene, lesson1.Scenes[0]? = some scene
      ∧ scene.Options.length = 2
      ∧ resolveChoice scene 0
          = Except.ok { Text := "Nama saya Wira.", Reaction := "Wah, nama yang bagus! Salam kenal, Aditya.", IsCorrect := true, ReactionImage := "Muka_sari_senang.png" }
      ∧ resolveChoice scene 2 = Except.error ChoiceError.IndexOutOfRange
      ∧ resolveChoice scene (-1) = Except.error ChoiceError.IndexOutOfRange := by
  refine ⟨lesson1.Scenes[0], rfl, rfl, ?_, ?_, ?_⟩
  · obtain ⟨option, ho, hr⟩ :=
      (resolveChoice_lookup lesson1.Scenes[0] 0).1 (by decide) (by decide)
    have ho2 : lesson1.Scenes[0].Options[0]?
        = some { Text := "Nama saya Wira.", Reaction := "Wah, nama yang bagus! Salam kenal, Aditya.", IsCorrect := true, ReactionImage := "Muka_sari_senang.png" } := rfl
    exact hr.trans (congrArg Except.ok (Option.some.inj (ho.symm.trans ho2)))
  · exact (resolveChoice_lookup lesson1.Scenes[0] 2).2 (Or.inr (by decide))
  · exact (resolveChoice_lookup lesson1.Scenes[0] (-1)).2 (Or.inl (by decide))

/-! ## The authored lesson -/

/-- C10: every scene of lesson1 has input mode "choice" or "text"; a "choice" scene has at
least one option; a "text" scene has no option. -/
theorem lesson1_scene_invariant (scene : Scene) (h : scene ∈ lesson1.Scenes) :
    (scene.InputType = "choice" ∨ scene.InputType = "text")
    ∧ (scene.InputType = "choice" → scene.Options ≠ [])
    ∧ (scene.InputType = "text" → scene.Options = []) := by
  have hall : ∀ sc ∈ lesson1.Scenes,
      (sc.InputType = "choice" ∨ sc.InputType = "text")
      ∧ (sc.InputType = "choice" → sc.Options ≠ [])
      ∧ (sc.InputType = "text" → sc.Options = []) := by decide
  exact hall scene h

/-- Witness for C10: the scene at position 1 of lesson1, a text scene. -/
theorem lesson1_scene_invariant_witness :
    ∃ scene, lesson1.Scenes[1]? = some scene
      ∧ scene.InputType = "text" ∧ scene.Options = [] :=
  ⟨{ InputType := "text"
     CharacterName := "Sari"
     CharacterMood := "Muka_sari_senang.png"
     Dialogue := "Salam kenal ya. Ngomong-ngomong, kamu asalnya dari mana?"
     Options := [] },
    rfl, rfl,
    (lesson1_scene_invariant
      { InputType := "text"
        CharacterName := "Sari"
        CharacterMood := "Muka_sari_senang.png"
        Dialogue := "Salam kenal ya. Ngomong-ngomong, kamu asalnya dari mana?"
        Options := [] }
      (by decide)).2.2 rfl⟩

end Kotobaweb
